import Mathlib

/-!
Verification of the SmartPantry server (src/server/routes.ts, which bundles the
route handlers and the MemStorage in-memory store, plus the client library in
src/unnamed/part_001).

The embedding mirrors the TypeScript source:
* JavaScript `Map<number, InventoryItem>` becomes an association list with the
  Map's insertion-order semantics (`set` replaces in place or appends, `delete`
  filters, `values()` is the list of values in order).
* Optional / nullable fields become `Option`; JavaScript string falsiness
  (`x || null` treats `""`, `null`, `undefined` as falsy) is spelled out.
* The HTTP handlers are modelled up to the point where they either answer the
  request themselves (4xx) or dispatch a request to the external Anthropic
  model; the dispatch carries exactly the data the source would send.
-/

namespace SmartPantry

/-- A stored inventory record (shape of `InventoryItem` as produced by
`MemStorage`): identity, required name/location, nullable quantity, unit,
imageUrl, confidence, expiryDate, and the creation timestamp (`addedDate`,
abstracted to a tick counter). -/
structure InventoryItem where
  id : Nat
  name : String
  location : String
  quantity : Option String
  unit : Option String
  imageUrl : Option String
  confidence : Option Int
  expiryDate : Option String
  addedDate : Nat
deriving Repr, DecidableEq

/-- The body accepted by `createInventoryItem` (the `InsertInventoryItem`
type: an `InventoryItem` minus `id` and `addedDate`). -/
structure InsertInventoryItem where
  name : String
  location : String
  quantity : Option String := none
  unit : Option String := none
  imageUrl : Option String := none
  confidence : Option Int := none
  expiryDate : Option String := none
deriving Repr, DecidableEq

/-- `Map.get(k)` on the JavaScript `Map` backing the store. -/
def mapGet (m : List (Nat × InventoryItem)) (k : Nat) : Option InventoryItem :=
  (m.find? (fun p => p.1 = k)).map Prod.snd

/-- `Map.set(k, v)`: replace in place when the key is present, else append
(JavaScript Maps keep insertion order). -/
def mapSet (m : List (Nat × InventoryItem)) (k : Nat) (v : InventoryItem) :
    List (Nat × InventoryItem) :=
  if m.any (fun p => p.1 = k) then
    m.map (fun p => if p.1 = k then (k, v) else p)
  else
    m ++ [(k, v)]

/-- `Map.delete(k)`: remove the key, reporting whether it was present. -/
def mapDelete (m : List (Nat × InventoryItem)) (k : Nat) :
    Bool × List (Nat × InventoryItem) :=
  (m.any (fun p => p.1 = k), m.filter (fun p => ¬ p.1 = k))

/-- The `MemStorage` instance state: the inventory Map, the
`inventoryCurrentId` counter, and a tick used for `new Date()` timestamps. -/
structure MemStorage where
  inventory : List (Nat × InventoryItem)
  inventoryCurrentId : Nat
  now : Nat
deriving Repr, DecidableEq

/-- `new MemStorage()`: empty Map, counter starts at 1. -/
def initialStorage : MemStorage :=
  { inventory := [], inventoryCurrentId := 1, now := 0 }

/-- `insertItem.quantity || null` on a nullable string field: the empty
string, like `null`/`undefined`, is falsy and becomes `null`. -/
def strOrNull : Option String → Option String
  | some s => if s = "" then none else some s
  | none => none

/-- `insertItem.confidence || null` on a nullable integer field: `0` is
falsy and becomes `null`. -/
def intOrNull : Option Int → Option Int
  | some n => if n = 0 then none else some n
  | none => none

/-- `MemStorage.createInventoryItem`: take the next id, stamp `addedDate`,
coalesce every falsy optional field to `null`, and insert. Returns the
created record and the new store state. -/
def createInventoryItem (st : MemStorage) (insertItem : InsertInventoryItem) :
    InventoryItem × MemStorage :=
  let id := st.inventoryCurrentId
  let item : InventoryItem :=
    { id := id
      name := insertItem.name
      location := insertItem.location
      quantity := strOrNull insertItem.quantity
      unit := strOrNull insertItem.unit
      imageUrl := strOrNull insertItem.imageUrl
      confidence := intOrNull insertItem.confidence
      expiryDate := strOrNull insertItem.expiryDate
      addedDate := st.now }
  (item,
    { inventory := mapSet st.inventory id item
      inventoryCurrentId := st.inventoryCurrentId + 1
      now := st.now + 1 })

/-- A `Partial<InsertInventoryItem>` update body. An outer `none` means the
key is absent from the payload (the handler's `'field' in updateItem` test
fails); for the nullable fields the inner `Option` is the value, with `none`
for an explicit `null` (the source's `?? null` coalesces `undefined` the
same way). -/
structure UpdatePayload where
  name : Option String := none
  location : Option String := none
  quantity : Option (Option String) := none
  unit : Option (Option String) := none
  imageUrl : Option (Option String) := none
  confidence : Option (Option Int) := none
  expiryDate : Option (Option String) := none
deriving Repr, DecidableEq

/-- `MemStorage.updateInventoryItem`: look the id up; when present, build
`{ ...existingItem, ...processedUpdate }` where `processedUpdate` holds
exactly the keys present in the payload. `id` and `addedDate` are never in
the payload, so they are carried over from the existing record. -/
def updateInventoryItem (st : MemStorage) (id : Nat) (u : UpdatePayload) :
    Option InventoryItem × MemStorage :=
  match mapGet st.inventory id with
  | none => (none, st)
  | some existingItem =>
    let updatedItem : InventoryItem :=
      { id := existingItem.id
        name := u.name.getD existingItem.name
        location := u.location.getD existingItem.location
        quantity := u.quantity.getD existingItem.quantity
        unit := u.unit.getD existingItem.unit
        imageUrl := u.imageUrl.getD existingItem.imageUrl
        confidence := u.confidence.getD existingItem.confidence
        expiryDate := u.expiryDate.getD existingItem.expiryDate
        addedDate := existingItem.addedDate }
    (some updatedItem, { st with inventory := mapSet st.inventory id updatedItem })

/-- `MemStorage.deleteInventoryItem`: `this.inventory.delete(id)`. -/
def deleteInventoryItem (st : MemStorage) (id : Nat) : Bool × MemStorage :=
  ((mapDelete st.inventory id).1, { st with inventory := (mapDelete st.inventory id).2 })

/-- `MemStorage.getInventoryItems`: `Array.from(this.inventory.values())`. -/
def getInventoryItems (st : MemStorage) : List InventoryItem :=
  st.inventory.map Prod.snd

/-- `String.prototype.toLowerCase()`, character by character. -/
def jsToLower (s : String) : String :=
  String.mk (s.data.map Char.toLower)

/-- `MemStorage.getInventoryItemByName`: first value whose name matches
case-insensitively (declared for reconciliation lookup; no route in the
server source calls it). -/
def getInventoryItemByName (st : MemStorage) (name : String) : Option InventoryItem :=
  (getInventoryItems st).find? (fun item => jsToLower item.name = jsToLower name)

/-- One call against the store, as issued by the route handlers. -/
inductive StoreOp where
  | create (item : InsertInventoryItem)
  | update (id : Nat) (u : UpdatePayload)
  | delete (id : Nat)
deriving Repr, DecidableEq

/-- Run one operation; report the identities assigned by `create`. -/
def runOp (st : MemStorage) : StoreOp → MemStorage × List Nat
  | .create item =>
    ((createInventoryItem st item).2, [(createInventoryItem st item).1.id])
  | .update id u => ((updateInventoryItem st id u).2, [])
  | .delete id => ((deleteInventoryItem st id).2, [])

/-- Run a sequence of store operations, collecting every identity assigned
by a `create` in order. -/
def runOps (st : MemStorage) : List StoreOp → MemStorage × List Nat
  | [] => (st, [])
  | op :: ops =>
    ((runOps (runOp st op).1 ops).1, (runOp st op).2 ++ (runOps (runOp st op).1 ops).2)

/-- Number of `create` operations in a sequence. -/
def numCreates : List StoreOp → Nat
  | [] => 0
  | .create _ :: ops => numCreates ops + 1
  | .update _ _ :: ops => numCreates ops
  | .delete _ :: ops => numCreates ops

/-- Outcome of the POST /api/inventory handler on a schema-valid body. -/
structure InventoryPostResult where
  status : Nat
  item : InventoryItem
deriving Repr, DecidableEq

/-- The POST /api/inventory handler after `insertInventoryItemSchema.safeParse`
succeeds (the zod schema lives in @shared/schema, outside the server file; a
well-typed `InsertInventoryItem` body is one it accepts): call
`storage.createInventoryItem` and answer 201 with the created item. No other
store lookup or merge happens on this path. -/
def postInventory (st : MemStorage) (body : InsertInventoryItem) :
    InventoryPostResult × MemStorage :=
  ({ status := 201, item := (createInventoryItem st body).1 }, (createInventoryItem st body).2)

/-- What the POST /api/recognize handler does before any reply arrives:
either it answers the request itself (400) or it dispatches a message to the
external model carrying the image data. -/
inductive RecognizeStep where
  | badRequest (status : Nat) (message : String)
  | dispatch (imageData : String)
deriving Repr, DecidableEq

/-- JavaScript regex `\s` on the ASCII range (space, tab, and the newline
family), as used by the source's regexes. -/
def isJsWs (c : Char) : Bool :=
  c = ' ' || c = '\t' || c = '\n' || c = '\r' || c = '\x0b' || c = '\x0c'

/-- JavaScript regex `\w`: ASCII letters, digits, underscore. -/
def isWordChar (c : Char) : Bool :=
  c.isAlphanum || c = '_'

/-- Match of the anchored regex `^data:image\/\w+;base64,` : when the list
starts with `data:image/`, one or more word characters and `;base64,`,
return what follows that prefix. -/
def dropImagePrefix (cs : List Char) : Option (List Char) :=
  if ("data:image/".data).isPrefixOf cs then
    let rest := cs.drop 11
    if (rest.takeWhile isWordChar).isEmpty then none
    else
      let rest2 := rest.dropWhile isWordChar
      if (";base64,".data).isPrefixOf rest2 then some (rest2.drop 8) else none
  else none

/-- `imageBase64.replace(/^data:image\/\w+;base64,/, "")`: strip the
data-URL prefix when present, otherwise leave the string unchanged. -/
def stripDataUrl (s : String) : String :=
  match dropImagePrefix s.data with
  | some rest => String.mk rest
  | none => s

/-- The POST /api/recognize handler up to the external call: `!imageBase64`
(absent, null, or empty string are falsy) answers 400 without calling the
model; otherwise the handler dispatches the prefix-stripped payload to
`anthropic.messages.create`. -/
def recognizeGuard (imageBase64 : Option String) : RecognizeStep :=
  match imageBase64 with
  | none => .badRequest 400 "Image data is required"
  | some s =>
    if s = "" then .badRequest 400 "Image data is required"
    else .dispatch (stripDataUrl s)

/-- Modelled from the spec: §4.3 says the gateway "validates the stripped
payload contains only valid base64 characters before dispatching". No such
check exists anywhere in the server source; this definition captures the
spec's wording so the absence can be stated. -/
def isValidBase64 (s : String) : Bool :=
  !s.data.isEmpty && s.data.all (fun c => c.isAlphanum || c = '+' || c = '/' || c = '=')

/-- Helper for the regex `/\[\s*\{[\s\S]*\}\s*\]/` : length of a match of
`\s*\{` at the head of the list. -/
def wsOpenLen : List Char → Option Nat
  | [] => none
  | c :: rest =>
    if c = '\x7b' then some 1
    else if isJsWs c then (wsOpenLen rest).map (· + 1)
    else none

/-- Length of a match of `\[\s*\{` at the head of the list. -/
def openMatchLen : List Char → Option Nat
  | [] => none
  | c :: rest => if c = '[' then (wsOpenLen rest).map (· + 1) else none

/-- Length of a match of `\s*\]` at the head of the list. -/
def wsCloseLen : List Char → Option Nat
  | [] => none
  | c :: rest =>
    if c = ']' then some 1
    else if isJsWs c then (wsCloseLen rest).map (· + 1)
    else none

/-- Length of a match of `\}\s*\]` at the head of the list. -/
def closeMatchLen : List Char → Option Nat
  | [] => none
  | c :: rest => if c = '\x7d' then (wsCloseLen rest).map (· + 1) else none

/-- End position (exclusive) of the last occurrence of `\}\s*\]` in the
list: the greedy `[\s\S]*` makes the regex engine pick the rightmost close. -/
def lastCloseEnd : List Char → Option Nat
  | [] => none
  | c :: rest =>
    match lastCloseEnd rest with
    | some e => some (e + 1)
    | none => closeMatchLen (c :: rest)

/-- `responseText.match(/\[\s*\{[\s\S]*\}\s*\]/)`: try each start position
left to right; at the first position where `\[\s*\{` matches and a
`\}\s*\]` occurs after it, return the (greedy) matched run. -/
def extractFrom : List Char → Option (List Char)
  | [] => none
  | c :: rest =>
    match openMatchLen (c :: rest) with
    | some l =>
      match lastCloseEnd ((c :: rest).drop l) with
      | some e => some ((c :: rest).take (l + e))
      | none => extractFrom rest
    | none => extractFrom rest

/-- The source's JSON-array extraction over a `String`. -/
def extractJsonArray (s : String) : Option String :=
  (extractFrom s.data).map (fun cs => String.mk cs)

/-- One element of the JSON array parsed out of the model's reply, before
normalization (any of the optional fields may be missing). -/
structure RawRecognizedItem where
  name : String
  confidence : Option Int := none
  quantity : Option String := none
  unit : Option String := none
deriving Repr, DecidableEq

/-- A normalized recognized item as sent to the client. -/
structure RecognizedFoodItem where
  name : String
  confidence : Option Int
  quantity : String
  unit : String
deriving Repr, DecidableEq

/-- `{...item, name: item.name.toLowerCase(), quantity: item.quantity || "1",
unit: item.unit || ""}` : lowercase the name and default falsy quantity/unit. -/
def processRawItem (item : RawRecognizedItem) : RecognizedFoodItem :=
  { name := jsToLower item.name
    confidence := item.confidence
    quantity := match item.quantity with
      | some q => if q = "" then "1" else q
      | none => "1"
    unit := item.unit.getD "" }

/-- The hard-coded fallback list used when parsing the model reply fails. -/
def fallbackItems : List RecognizedFoodItem :=
  [{ name := "unidentified item", confidence := some 50, quantity := "1", unit := "" }]

/-- HTTP outcome of the POST /api/recognize reply processing. -/
inductive RecognizeResponse where
  | ok (status : Nat) (items : List RecognizedFoodItem)
  | error (status : Nat) (message : String)
deriving Repr, DecidableEq

/-- The POST /api/recognize handler from the moment the model reply text is
in hand (the inner try/catch): extract a JSON array shaped substring; feed
it to `JSON.parse` — external library code, abstracted as the `parseItems`
argument, `none` meaning the parse threw — and on either failure answer 200
with the fallback list; on success answer 200 with the normalized items. -/
def handleRecognizeReply (parseItems : String → Option (List RawRecognizedItem))
    (responseText : String) : RecognizeResponse :=
  match extractJsonArray responseText with
  | none => .ok 200 fallbackItems
  | some jsonText =>
    match parseItems jsonText with
    | none => .ok 200 fallbackItems
    | some recognizedItems => .ok 200 (recognizedItems.map processRawItem)

/-- The optional nutritional/complexity/budget filter set the client sends
in the POST /api/recipe-suggestions body (src/unnamed/part_004). -/
structure RecipeFilters where
  simplicity : Option Int := none
  budget : Option Int := none
  maxCalories : Option Int := none
  maxSugar : Option Int := none
  minProtein : Option Int := none
  maxCarbs : Option Int := none
deriving Repr, DecidableEq

/-- The `ingredients` field of the request body as the handler's
`!ingredients || !Array.isArray(ingredients)` test sees it. -/
inductive IngredientsField where
  | absent
  | notArray
  | array (xs : List String)
deriving Repr, DecidableEq

/-- The POST /api/recipe-suggestions request body. -/
structure RecipeRequest where
  ingredients : IngredientsField
  focusIngredient : Option String := none
  filters : Option RecipeFilters := none
deriving Repr, DecidableEq

/-- `!ingredients || !Array.isArray(ingredients) || ingredients.length === 0`. -/
def ingredientsInvalid : IngredientsField → Bool
  | .absent => true
  | .notArray => true
  | .array xs => xs.isEmpty

/-- One entry of `detailedInventory`: lowercased name and quantity string,
`item.quantity ? (quantity + " " + (unit || "")).trim() : "1"`. -/
def inventoryEntry (item : InventoryItem) : String :=
  let quantityStr :=
    match item.quantity with
    | some q => if q = "" then "1" else (q ++ " " ++ item.unit.getD "").trim
    | none => "1"
  jsToLower item.name ++ " (" ++ quantityStr ++ ")"

/-- The recipe prompt template up to `${detailedInventory.join(", ")}`. -/
def recipePromptHead : String :=
  "I have ONLY these ingredients in my inventory (with quantities): "

/-- The recipe prompt template after the inventory list (the template
literal's own newlines and indentation included). -/
def recipePromptTail : String :=
  ".\n                \n                Please suggest 3 recipes I could make using ONLY these ingredients and respecting the quantities I have available. Do not suggest any ingredients that aren\x27t in my inventory list above, and do not suggest using more of an ingredient than I have. Keep recipes simple and practical.\n                \n                Return your response as a valid JSON array of recipe objects with these properties:\n                - id: a unique string (use uuid-like format)\n                - title: recipe name\n                - description: brief description (1-2 sentences)\n                - ingredients: array of ingredient amounts needed (include specific quantities, but ONLY using items from my inventory and respecting my available amounts)\n                - usedInventoryItems: array of ingredient names that match my inventory items\n                - cookTime: cooking time as a string (e.g. \"30 min\")\n                - calories: approximate calories as a number\n                - image: a URL to a representative image (use urls from unsplash.com)\n                - isFavorite: set to false\n                \n                Return complete, valid JSON without any explanation text."

/-- The user-content prompt text the handler sends to the model, a function
of the inventory queried from the store and of nothing else. -/
def buildRecipePrompt (items : List InventoryItem) : String :=
  recipePromptHead ++ String.intercalate ", " (items.map inventoryEntry) ++ recipePromptTail

/-- What the POST /api/recipe-suggestions handler does before any reply:
answer 400 itself, or dispatch a prompt to the external model. -/
inductive RecipeStep where
  | badRequest (status : Nat) (message : String)
  | dispatch (prompt : String)
deriving Repr, DecidableEq

/-- The POST /api/recipe-suggestions handler up to the external call: the
ingredients guard, then `storage.getInventoryItems()` and the prompt built
from that inventory. The body's `focusIngredient` and `filters` fields are
not read anywhere in the handler. -/
def recipeSuggestionsStep (st : MemStorage) (req : RecipeRequest) : RecipeStep :=
  if ingredientsInvalid req.ingredients then
    .badRequest 400 "Ingredients list is required"
  else
    .dispatch (buildRecipePrompt (getInventoryItems st))

/-! ### Helper definitions for concrete statements -/

/-- Bool test: does `pat` occur as a contiguous run inside the second list? -/
def hasInfix (pat : List Char) : List Char → Bool
  | [] => pat.isEmpty
  | c :: rest => pat.isPrefixOf (c :: rest) || hasInfix pat rest

/-- Substring test on strings, used to state facts about prompt texts. -/
def containsStr (pat s : String) : Bool :=
  hasInfix pat.data s.data

/-- First POST /api/inventory body of the spec's own example scenario. -/
def eggBody1 : InsertInventoryItem :=
  { name := "egg", location := "Fridge", quantity := some "6" }

/-- Second body of the example scenario: same item, case-different name. -/
def eggBody2 : InsertInventoryItem :=
  { name := "Egg", location := "Fridge", quantity := some "6" }

/-- A create body carrying the string quantity "0". -/
def zeroQuantityBody : InsertInventoryItem :=
  { name := "flour", location := "Cabinet", quantity := some "0" }

/-- A one-item store used to exercise `updateInventoryItem`. -/
def frameDemoItem : InventoryItem :=
  { id := 1, name := "milk", location := "Fridge", quantity := some "2",
    unit := some "L", imageUrl := none, confidence := some 90,
    expiryDate := some "2026-01-01", addedDate := 0 }

/-- Store state holding exactly `frameDemoItem`. -/
def frameDemoStore : MemStorage :=
  { inventory := [(1, frameDemoItem)], inventoryCurrentId := 2, now := 1 }

/-- An update payload whose only present key is `quantity`, set to "5". -/
def frameDemoPayload : UpdatePayload :=
  { quantity := some (some "5") }

/-- A recipe request carrying a focus ingredient and an active filter. -/
def focusedRecipeRequest : RecipeRequest :=
  { ingredients := .array ["eggs"], focusIngredient := some "cheese",
    filters := some { simplicity := some 2 } }

/-- A bare recipe request: same validation outcome, no focus, no filters. -/
def bareRecipeRequest : RecipeRequest :=
  { ingredients := .array ["tofu", "rice"] }

/-! ### Store lemmas -/

/-- Looking up the key just written by `mapSet` yields the written value. -/
theorem mapGet_mapSet_self (k : Nat) (v : InventoryItem) (m : List (Nat × InventoryItem)) :
    mapGet (mapSet m k v) k = some v := by
  unfold mapSet
  by_cases h : m.any (fun p => p.1 = k)
  · rw [if_pos h]
    revert h
    induction m with
    | nil => intro h; simp at h
    | cons p rest ih =>
      intro h
      by_cases hp : p.1 = k
      · simp [mapGet, List.find?, hp]
      · have hr : rest.any (fun p => p.1 = k) = true := by
          rcases List.any_eq_true.mp h with ⟨x, hx, hpx⟩
          rcases List.mem_cons.mp hx with rfl | hx2
          · exact absurd (of_decide_eq_true hpx) hp
          · exact List.any_eq_true.mpr ⟨x, hx2, hpx⟩
        have hres := ih hr
        simpa [mapGet, List.find?, hp] using hres
  · rw [if_neg h]
    revert h
    induction m with
    | nil => intro _; simp [mapGet, List.find?]
    | cons p rest ih =>
      intro h
      have hp : ¬ p.1 = k := by
        intro hk
        exact h (List.any_eq_true.mpr ⟨p, List.mem_cons_self p rest, decide_eq_true hk⟩)
      have hr : ¬ rest.any (fun p => p.1 = k) = true := by
        intro hk
        rcases List.any_eq_true.mp hk with ⟨x, hx, hpx⟩
        exact h (List.any_eq_true.mpr ⟨x, List.mem_cons_of_mem p hx, hpx⟩)
      have hres := ih hr
      simpa [mapGet, List.find?, hp] using hres

/-- `updateInventoryItem` never touches the identity counter. -/
theorem updateInventoryItem_currentId (st : MemStorage) (id : Nat) (u : UpdatePayload) :
    (updateInventoryItem st id u).2.inventoryCurrentId = st.inventoryCurrentId := by
  unfold updateInventoryItem
  cases mapGet st.inventory id <;> rfl

/-- `deleteInventoryItem` never touches the identity counter. -/
theorem deleteInventoryItem_currentId (st : MemStorage) (id : Nat) :
    (deleteInventoryItem st id).2.inventoryCurrentId = st.inventoryCurrentId := rfl

/-- Running a sequence of store operations from any state assigns exactly the
identities `currentId, currentId + 1, ...`, one per create, and leaves the
counter advanced by the number of creates. -/
theorem runOps_assigned (ops : List StoreOp) : ∀ st : MemStorage,
    (runOps st ops).2 = List.range' st.inventoryCurrentId (numCreates ops) ∧
    (runOps st ops).1.inventoryCurrentId = st.inventoryCurrentId + numCreates ops := by
  induction ops with
  | nil => intro st; simp [runOps, numCreates]
  | cons op ops ih =>
    intro st
    cases op with
    | create item =>
      have h := ih (createInventoryItem st item).2
      have hc : (createInventoryItem st item).2.inventoryCurrentId =
          st.inventoryCurrentId + 1 := rfl
      rw [hc] at h
      refine ⟨?_, ?_⟩
      · show (createInventoryItem st item).1.id :: (runOps (createInventoryItem st item).2 ops).2 =
            List.range' st.inventoryCurrentId (numCreates ops + 1)
        rw [List.range'_succ, h.1]
        rfl
      · show (runOps (createInventoryItem st item).2 ops).1.inventoryCurrentId =
            st.inventoryCurrentId + (numCreates ops + 1)
        rw [h.2]
        omega
    | update id u =>
      have h := ih (updateInventoryItem st id u).2
      rw [updateInventoryItem_currentId] at h
      exact h
    | delete id =>
      have h := ih (deleteInventoryItem st id).2
      rw [deleteInventoryItem_currentId] at h
      exact h

/-- `strOrNull` yields null exactly on the falsy strings (absent or empty). -/
theorem strOrNull_eq_none (o : Option String) :
    strOrNull o = none ↔ (o = none ∨ o = some "") := by
  cases o with
  | none => simp [strOrNull]
  | some s => by_cases h : s = "" <;> simp [strOrNull, h]

/-- `intOrNull` yields null exactly on the falsy numbers (absent or zero). -/
theorem intOrNull_eq_none (o : Option Int) :
    intOrNull o = none ↔ (o = none ∨ o = some 0) := by
  cases o with
  | none => simp [intOrNull]
  | some n => by_cases h : n = 0 <;> simp [intOrNull, h]

/-- `strOrNull` never yields the empty string. -/
theorem strOrNull_ne_empty (o : Option String) : ¬ strOrNull o = some "" := by
  cases o with
  | none => simp [strOrNull]
  | some s => by_cases h : s = "" <;> simp [strOrNull, h]

/-- A truthy (non-empty) string passes `strOrNull` unchanged. -/
theorem strOrNull_of_ne_empty (q : String) (h : ¬ q = "") :
    strOrNull (some q) = some q := by
  simp [strOrNull, h]

/-! ### Claim theorems -/

/-- C1 (code bug evidence): the spec's own example scenario run against the
code. Two POST /inventory requests with case-insensitively equal name "egg"
and location "Fridge", each with quantity "6": the handler answers 201 to
the second request as well, and the store ends with TWO records matching
(egg, Fridge), each with quantity "6" — no merge into a single record with
quantity "12" and no quantityUpdated/previousQuantity response ever occurs. -/
theorem post_inventory_never_merges :
    (postInventory (postInventory initialStorage eggBody1).2 eggBody2).1.status = 201 ∧
    (getInventoryItems (postInventory (postInventory initialStorage eggBody1).2 eggBody2).2).length = 2 ∧
    ((getInventoryItems (postInventory (postInventory initialStorage eggBody1).2 eggBody2).2).filter
        (fun it => jsToLower it.name == "egg" && it.location == "Fridge")).map
        (fun it => it.quantity) = [some "6", some "6"] := by
  decide

set_option maxRecDepth 100000 in
/-- C2 (code bug evidence): a POST /recipe-suggestions request with focus
ingredient "cheese" and an active simplicity filter of 2. The prompt the
handler dispatches is exactly the one built from the (here empty) inventory:
it mentions neither "cheese" nor any simplicity directive such as
"very simple" — the handler never reads `focusIngredient` or `filters`. -/
theorem recipe_prompt_ignores_focus_and_filters :
    recipeSuggestionsStep initialStorage focusedRecipeRequest =
      .dispatch (buildRecipePrompt []) ∧
    containsStr "cheese" (buildRecipePrompt []) = false ∧
    containsStr "very simple" (buildRecipePrompt []) = false := by
  refine ⟨rfl, by decide, by decide⟩

/-- C3 (counterexample): the payload "!!!" contains no valid base64
character, yet the handler dispatches it to the external model instead of
answering 400 — no base64-character validation happens before dispatch. -/
theorem recognize_malformed_payload_dispatched_cex :
    recognizeGuard (some "!!!") = .dispatch "!!!" ∧ isValidBase64 "!!!" = false := by
  decide

/-- C3 (amended): for every non-empty imageBase64 payload the handler strips
an optional data-URL prefix and dispatches the result to the model,
performing no base64-character validation; only an absent or empty payload
is answered with 400. -/
theorem recognize_dispatch_without_validation (s : String) (h : ¬ s = "") :
    recognizeGuard (some s) = .dispatch (stripDataUrl s) := by
  simp [recognizeGuard, h]

/-- C3 witness: the amended theorem applied at a concrete payload. -/
theorem recognize_dispatch_without_validation_witness :
    recognizeGuard (some "????") = .dispatch (stripDataUrl "????") :=
  recognize_dispatch_without_validation "????" (by decide)

/-- C4: whenever the model reply contains no substring matching the
JSON-array-of-objects regex, or the extracted substring fails to parse, the
reply processing answers HTTP 200 with exactly one synthetic fallback item
(name "unidentified item", confidence 50, quantity "1", empty unit); no
hard failure reaches the HTTP layer on this path. -/
theorem recognize_parse_failure_fallback
    (parseItems : String → Option (List RawRecognizedItem)) (responseText : String)
    (h : extractJsonArray responseText = none ∨
      ∃ jsonText, extractJsonArray responseText = some jsonText ∧ parseItems jsonText = none) :
    handleRecognizeReply parseItems responseText = .ok 200 fallbackItems ∧
    fallbackItems =
      [{ name := "unidentified item", confidence := some 50, quantity := "1", unit := "" }] := by
  refine ⟨?_, rfl⟩
  rcases h with h | ⟨jsonText, hjs, hp⟩
  · simp [handleRecognizeReply, h]
  · simp [handleRecognizeReply, hjs, hp]

/-- C4 witness: a reply with no JSON array in it, under a parse function
that always fails. -/
theorem recognize_parse_failure_fallback_witness :
    handleRecognizeReply (fun _ => none) "The image shows a carton of milk." =
      .ok 200 fallbackItems ∧
    fallbackItems =
      [{ name := "unidentified item", confidence := some 50, quantity := "1", unit := "" }] :=
  recognize_parse_failure_fallback (fun _ => none) "The image shows a carton of milk."
    (Or.inl (by decide))

/-- C5: a POST /recognize request whose imageBase64 is absent or the empty
string is answered 400 and the external model is never dispatched to. -/
theorem recognize_missing_image_rejected (imageBase64 : Option String)
    (h : imageBase64 = none ∨ imageBase64 = some "") :
    recognizeGuard imageBase64 = .badRequest 400 "Image data is required" ∧
    ∀ d, ¬ recognizeGuard imageBase64 = .dispatch d := by
  rcases h with h | h <;> subst h <;>
    exact ⟨by decide, by intro d hd; simp [recognizeGuard] at hd⟩

/-- C5 witness: the theorem applied at the absent payload. -/
theorem recognize_missing_image_rejected_witness :
    recognizeGuard none = .badRequest 400 "Image data is required" ∧
    ∀ d, ¬ recognizeGuard none = .dispatch d :=
  recognize_missing_image_rejected none (Or.inl rfl)

/-- C6: a POST /recipe-suggestions request whose ingredients field is
absent, not an array, or an empty array is answered 400 and no prompt is
ever dispatched to the external model. -/
theorem recipe_invalid_ingredients_rejected (st : MemStorage) (req : RecipeRequest)
    (h : req.ingredients = .absent ∨ req.ingredients = .notArray ∨
      req.ingredients = .array []) :
    recipeSuggestionsStep st req = .badRequest 400 "Ingredients list is required" ∧
    ∀ p, ¬ recipeSuggestionsStep st req = .dispatch p := by
  have hv : ingredientsInvalid req.ingredients = true := by
    rcases h with h | h | h <;> rw [h] <;> rfl
  refine ⟨?_, ?_⟩ <;> unfold recipeSuggestionsStep <;> rw [hv] <;> simp

/-- C6 witness: the theorem applied at an empty ingredients array. -/
theorem recipe_invalid_ingredients_rejected_witness :
    recipeSuggestionsStep initialStorage { ingredients := .array [] } =
      .badRequest 400 "Ingredients list is required" ∧
    ∀ p, ¬ recipeSuggestionsStep initialStorage { ingredients := .array [] } = .dispatch p :=
  recipe_invalid_ingredients_rejected initialStorage { ingredients := .array [] }
    (Or.inr (Or.inr rfl))

/-- C7: over every operation sequence from the initial store, the
identities assigned by create are strictly increasing, hence pairwise
distinct and never reused — also after the record holding one is deleted. -/
theorem create_ids_strictly_increasing (ops : List StoreOp) :
    ((runOps initialStorage ops).2).Pairwise (· < ·) ∧
    ((runOps initialStorage ops).2).Nodup := by
  have h := (runOps_assigned ops initialStorage).1
  rw [h]
  exact ⟨List.pairwise_lt_range' .., (List.pairwise_lt_range' ..).imp Nat.ne_of_lt⟩

/-- C8: updating a stored item overwrites exactly the fields present in the
partial payload: every absent field, as well as id and addedDate, keeps its
previous value, and a payload carrying only quantity "5" sets quantity to
"5" and nothing else. -/
theorem update_partial_frame (st : MemStorage) (id : Nat) (old : InventoryItem)
    (h : mapGet st.inventory id = some old) (u : UpdatePayload) :
    ∃ r, (updateInventoryItem st id u).1 = some r ∧
      r.id = old.id ∧ r.addedDate = old.addedDate ∧
      (u.name = none → r.name = old.name) ∧
      (u.location = none → r.location = old.location) ∧
      (u.quantity = none → r.quantity = old.quantity) ∧
      (u.unit = none → r.unit = old.unit) ∧
      (u.imageUrl = none → r.imageUrl = old.imageUrl) ∧
      (u.confidence = none → r.confidence = old.confidence) ∧
      (u.expiryDate = none → r.expiryDate = old.expiryDate) ∧
      (u.quantity = some (some "5") → r.quantity = some "5") := by
  unfold updateInventoryItem
  rw [h]
  refine ⟨_, rfl, rfl, rfl, ?_, ?_, ?_, ?_, ?_, ?_, ?_, ?_⟩ <;>
    intro hu <;> simp [hu]

/-- C8 witness: the frame theorem applied to the one-item demo store with
the payload whose only key is quantity = "5". -/
theorem update_partial_frame_witness :
    ∃ r, (updateInventoryItem frameDemoStore 1 frameDemoPayload).1 = some r ∧
      r.id = frameDemoItem.id ∧ r.addedDate = frameDemoItem.addedDate ∧
      (frameDemoPayload.name = none → r.name = frameDemoItem.name) ∧
      (frameDemoPayload.location = none → r.location = frameDemoItem.location) ∧
      (frameDemoPayload.quantity = none → r.quantity = frameDemoItem.quantity) ∧
      (frameDemoPayload.unit = none → r.unit = frameDemoItem.unit) ∧
      (frameDemoPayload.imageUrl = none → r.imageUrl = frameDemoItem.imageUrl) ∧
      (frameDemoPayload.confidence = none → r.confidence = frameDemoItem.confidence) ∧
      (frameDemoPayload.expiryDate = none → r.expiryDate = frameDemoItem.expiryDate) ∧
      (frameDemoPayload.quantity = some (some "5") → r.quantity = some "5") :=
  update_partial_frame frameDemoStore 1 frameDemoItem (by decide) frameDemoPayload

/-- C9: for a fixed store, any two recipe-suggestion requests that pass the
ingredients validation cause the identical prompt to be dispatched — the
prompt is built solely from the inventory, so the request's ingredients,
focusIngredient and filters have no influence on it. -/
theorem recipe_prompt_request_independent (st : MemStorage) (r1 r2 : RecipeRequest)
    (h1 : ingredientsInvalid r1.ingredients = false)
    (h2 : ingredientsInvalid r2.ingredients = false) :
    recipeSuggestionsStep st r1 = recipeSuggestionsStep st r2 ∧
    recipeSuggestionsStep st r1 = .dispatch (buildRecipePrompt (getInventoryItems st)) := by
  unfold recipeSuggestionsStep
  rw [h1, h2]
  simp

/-- C9 witness: a focused, filtered request and a bare one produce the same
dispatched prompt on the initial store. -/
theorem recipe_prompt_request_independent_witness :
    recipeSuggestionsStep initialStorage focusedRecipeRequest =
      recipeSuggestionsStep initialStorage bareRecipeRequest ∧
    recipeSuggestionsStep initialStorage focusedRecipeRequest =
      .dispatch (buildRecipePrompt (getInventoryItems initialStorage)) :=
  recipe_prompt_request_independent initialStorage focusedRecipeRequest bareRecipeRequest rfl rfl

/-- C10 (counterexample): a create body with quantity "0" — a truthy,
non-empty string in JavaScript — is stored with quantity "0", not null, so
a record can hold quantity "0" immediately after a create. -/
theorem create_quantity_zero_not_nulled_cex :
    (createInventoryItem initialStorage zeroQuantityBody).1.quantity = some "0" ∧
    ¬ (createInventoryItem initialStorage zeroQuantityBody).1.quantity = none ∧
    mapGet (createInventoryItem initialStorage zeroQuantityBody).2.inventory 1 =
      some (createInventoryItem initialStorage zeroQuantityBody).1 := by
  decide

/-- C10 (amended): createInventoryItem coalesces exactly the falsy optional
fields to null — quantity, unit, imageUrl, expiryDate become null exactly
when absent or the empty string, confidence exactly when absent or zero; a
non-empty quantity string such as "0" is preserved; the stored record never
has quantity "" and equals the record returned. -/
theorem create_falsy_field_normalization (st : MemStorage) (item : InsertInventoryItem) :
    ((createInventoryItem st item).1.quantity = none ↔
      (item.quantity = none ∨ item.quantity = some "")) ∧
    ((createInventoryItem st item).1.unit = none ↔
      (item.unit = none ∨ item.unit = some "")) ∧
    ((createInventoryItem st item).1.imageUrl = none ↔
      (item.imageUrl = none ∨ item.imageUrl = some "")) ∧
    ((createInventoryItem st item).1.expiryDate = none ↔
      (item.expiryDate = none ∨ item.expiryDate = some "")) ∧
    ((createInventoryItem st item).1.confidence = none ↔
      (item.confidence = none ∨ item.confidence = some 0)) ∧
    ¬ (createInventoryItem st item).1.quantity = some "" ∧
    (∀ q, ¬ q = "" → item.quantity = some q →
      (createInventoryItem st item).1.quantity = some q) ∧
    mapGet (createInventoryItem st item).2.inventory (createInventoryItem st item).1.id =
      some (createInventoryItem st item).1 := by
  refine ⟨strOrNull_eq_none item.quantity, strOrNull_eq_none item.unit,
    strOrNull_eq_none item.imageUrl, strOrNull_eq_none item.expiryDate,
    intOrNull_eq_none item.confidence, strOrNull_ne_empty item.quantity, ?_,
    mapGet_mapSet_self st.inventoryCurrentId _ st.inventory⟩
  intro q hq hitem
  show strOrNull item.quantity = some q
  rw [hitem]
  exact strOrNull_of_ne_empty q hq

end SmartPantry
